import Mathlib

/-!
Verification of the database bootstrap module `src/api/database.py` of the
churn-mlops-postgres repository: configuration resolution from environment
variables, three-way engine construction branching on the connection URL,
the session-scoped dependency `get_db`, schema lifecycle helpers
(`init_db`, `drop_db`, `reset_db`), the health check `check_db_connection`,
and the pool diagnostics `get_pool_status` / `log_pool_status`.
-/

namespace ChurnDb

/-! ## Python `in` on strings: substring containment -/

/-- Python's `needle in hay` for strings: substring containment. -/
def pyIn (needle hay : String) : Bool :=
  decide (List.IsInfix needle.data hay.data)

/-! ## Python `int()` conversion

`DB_POOL_SIZE = int(os.getenv("DB_POOL_SIZE", "20"))` etc. convert the raw
environment string with Python's `int` builtin: surrounding whitespace is
stripped, an optional sign is allowed, and the body must be a nonempty run
of decimal digits in which a single underscore may separate two digits;
anything else raises `ValueError`. -/

/-- Accumulate the value of a digit run that may contain single underscores
between digits; `none` when the grammar is violated. -/
def pyDigitsAux : List Char → Nat → Option Nat
  | [], acc => some acc
  | c :: cs, acc =>
    if c.isDigit then pyDigitsAux cs (10 * acc + (c.toNat - 48))
    else if c = '_' then
      match cs with
      | [] => none
      | d :: cs2 => if d.isDigit then pyDigitsAux cs2 (10 * acc + (d.toNat - 48)) else none
    else none

/-- Value of the digit body of a Python integer literal; must start with a
digit and be nonempty. -/
def pyDigits : List Char → Option Nat
  | [] => none
  | c :: cs => if c.isDigit then pyDigitsAux cs (c.toNat - 48) else none

/-- Strip whitespace from both ends of a character list. -/
def stripChars (s : List Char) : List Char :=
  ((s.dropWhile Char.isWhitespace).reverse.dropWhile Char.isWhitespace).reverse

/-- Python `int(s)`: `.ok n` when the string denotes the integer `n`,
`.error` when `int` raises `ValueError`. -/
def pyInt (s : String) : Except String Int :=
  match stripChars s.data with
  | '+' :: rest =>
    match pyDigits rest with
    | some n => .ok (Int.ofNat n)
    | none => .error s
  | '-' :: rest =>
    match pyDigits rest with
    | some n => .ok (-(Int.ofNat n))
    | none => .error s
  | rest =>
    match pyDigits rest with
    | some n => .ok (Int.ofNat n)
    | none => .error s

/-! ## Configuration resolution

The module reads five environment variables at import time, with fixed
defaults when a variable is absent.  The environment is modelled as a
partial map from variable names to string values. -/

/-- An environment: `none` means the variable is unset. -/
def Env : Type := String → Option String

/-- The empty environment: every variable is unset. -/
def envEmpty : Env := fun _ => none

/-- Set one variable on top of an environment. -/
def envSet (name val : String) (env : Env) : Env :=
  fun n => if n = name then some val else env n

/-- `os.getenv(name, dflt)`. -/
def getenvD (env : Env) (name dflt : String) : String :=
  (env name).getD dflt

/-- `DATABASE_URL = os.getenv("DATABASE_URL", "sqlite:///./churn_api.db")`. -/
def DATABASE_URL (env : Env) : String :=
  getenvD env "DATABASE_URL" "sqlite:///./churn_api.db"

/-- `DB_POOL_SIZE = int(os.getenv("DB_POOL_SIZE", "20"))`. -/
def DB_POOL_SIZE (env : Env) : Except String Int :=
  pyInt (getenvD env "DB_POOL_SIZE" "20")

/-- `DB_MAX_OVERFLOW = int(os.getenv("DB_MAX_OVERFLOW", "10"))`. -/
def DB_MAX_OVERFLOW (env : Env) : Except String Int :=
  pyInt (getenvD env "DB_MAX_OVERFLOW" "10")

/-- `DB_POOL_TIMEOUT = int(os.getenv("DB_POOL_TIMEOUT", "30"))`. -/
def DB_POOL_TIMEOUT (env : Env) : Except String Int :=
  pyInt (getenvD env "DB_POOL_TIMEOUT" "30")

/-- `DB_POOL_RECYCLE = int(os.getenv("DB_POOL_RECYCLE", "3600"))`. -/
def DB_POOL_RECYCLE (env : Env) : Except String Int :=
  pyInt (getenvD env "DB_POOL_RECYCLE" "3600")

/-! ## Engine construction

`create_engine` is modelled by the record of keyword arguments the module
passes to it; the three-way branch on `DATABASE_URL` is reproduced from the
source. -/

/-- The `connect_args` dictionary passed to `create_engine`. -/
structure ConnectArgs where
  sslmode : Option String
  connect_timeout : Option Int
  check_same_thread : Option Bool
deriving DecidableEq, Repr

/-- The keyword arguments of the `create_engine` call that built the
module-level engine.  `none` on an option field means the keyword was not
passed. -/
structure EngineConfig where
  url : String
  poolclass_is_queue : Bool
  pool_size : Option Int
  max_overflow : Option Int
  pool_timeout : Option Int
  pool_recycle : Option Int
  pool_pre_ping : Bool
  connect_args : Option ConnectArgs
  echo : Option Bool
deriving DecidableEq, Repr

/-- The module-level `engine`: branch on the resolved URL exactly as the
source does (`"supabase" in DATABASE_URL or "pooler.supabase.com" in
DATABASE_URL`, `elif "postgresql" in DATABASE_URL`, `else` SQLite). -/
def makeEngine (url : String) (ps mo pt pr : Int) : EngineConfig :=
  if pyIn "supabase" url || pyIn "pooler.supabase.com" url then
    { url := url
      poolclass_is_queue := true
      pool_size := some ps
      max_overflow := some mo
      pool_timeout := some pt
      pool_recycle := some pr
      pool_pre_ping := true
      connect_args := some { sslmode := some "require", connect_timeout := some 10,
                             check_same_thread := none }
      echo := some false }
  else if pyIn "postgresql" url then
    { url := url
      poolclass_is_queue := true
      pool_size := some ps
      max_overflow := some mo
      pool_timeout := some pt
      pool_recycle := some pr
      pool_pre_ping := true
      connect_args := none
      echo := none }
  else
    { url := url
      poolclass_is_queue := false
      pool_size := none
      max_overflow := none
      pool_timeout := none
      pool_recycle := none
      pool_pre_ping := false
      connect_args := some { sslmode := none, connect_timeout := none,
                             check_same_thread := some false }
      echo := some false }

/-! ## `get_db` — session-scoped dependency

```
def get_db():
    db = SessionLocal()
    try:
        yield db
    finally:
        db.close()
```
The caller of the generator can resume it normally, throw an exception into
the suspended `yield`, or close the generator early (`GeneratorExit`); in
every case Python runs the `finally` block before the generator finishes. -/

/-- How the generator body finishes: normal completion, a propagating
exception, or early termination of the generator. -/
inductive PyOutcome (α : Type) where
  | ret : α → PyOutcome α
  | raised : PyOutcome α
  | genExit : PyOutcome α
deriving DecidableEq

/-- Bookkeeping for the one session `get_db` creates. -/
structure SessionLog where
  opened : Nat
  closed : Nat
deriving DecidableEq, Repr

/-- Python `try:`/`finally:`: the cleanup runs after the body, on every kind
of outcome (normal, raised, generator exit). -/
def tryFinallyS {α : Type} (body : SessionLog → PyOutcome α × SessionLog)
    (cleanup : SessionLog → SessionLog) (s : SessionLog) : PyOutcome α × SessionLog :=
  let r := body s
  (r.1, cleanup r.2)

/-- What the caller does while the generator is suspended at `yield db`. -/
inductive CallerAction where
  | consume
  | raiseErr
  | closeEarly
deriving DecidableEq

/-- `db.close()`. -/
def sessionClose (s : SessionLog) : SessionLog :=
  { s with closed := s.closed + 1 }

/-- One run of `get_db` under a given caller behaviour: `db = SessionLocal()`
opens the session, the body yields once, and the `finally` closes it. -/
def get_db (a : CallerAction) : PyOutcome Unit × SessionLog :=
  let s0 : SessionLog := { opened := 1, closed := 0 }
  tryFinallyS
    (fun s =>
      match a with
      | .consume => (.ret (), s)
      | .raiseErr => (.raised, s)
      | .closeEarly => (.genExit, s))
    sessionClose s0

/-! ## Schema lifecycle: `init_db`, `drop_db`, `reset_db`

The database's table population is a list of table names;
`Base.metadata` (the schema registry) is the list of registered tables.
`create_all` creates each registered table not already present;
`drop_all` drops each registered table. -/

/-- `Base.metadata.create_all(bind=engine)`: tables after creating every
registered table that does not already exist. -/
def create_all (registry state : List String) : List String :=
  state ++ registry.filter (fun t => !(state.contains t))

/-- `Base.metadata.drop_all(bind=engine)`: tables after dropping every
registered table. -/
def drop_all (registry state : List String) : List String :=
  state.filter (fun t => !(registry.contains t))

/-- Which step of `init_db` fails, if any: `create_all`, `engine.connect()`,
or `conn.execute("SELECT 1")`. -/
structure InitBehavior where
  createOk : Bool
  connectOk : Bool
  executeOk : Bool
deriving DecidableEq

/-- Observable outcome of one `init_db` call: whether the exception was
re-raised, the resulting tables, and the log lines emitted. -/
structure InitRun where
  raised : Bool
  tables : List String
  infoLogs : Nat
  errorLogs : Nat
deriving DecidableEq

/-- `init_db`: `create_all`, info log, throwaway connection, `SELECT 1`,
info log; `except` logs the error and re-raises. -/
def init_db (b : InitBehavior) (registry state : List String) : InitRun :=
  if b.createOk = false then
    { raised := true, tables := state, infoLogs := 0, errorLogs := 1 }
  else if b.connectOk = false then
    { raised := true, tables := create_all registry state, infoLogs := 1, errorLogs := 1 }
  else if b.executeOk = false then
    { raised := true, tables := create_all registry state, infoLogs := 1, errorLogs := 1 }
  else
    { raised := false, tables := create_all registry state, infoLogs := 2, errorLogs := 0 }

/-- Table effect of a successful `drop_db` call. -/
def drop_db_tables (registry state : List String) : List String :=
  drop_all registry state

/-- Table effect of a successful `init_db` call. -/
def init_db_tables (registry state : List String) : List String :=
  create_all registry state

/-- Table effect of a successful `reset_db` call: `drop_db()` then
`init_db()`, unconditionally in that order. -/
def reset_db_tables (registry state : List String) : List String :=
  init_db_tables registry (drop_db_tables registry state)

/-! ## `check_db_connection` -/

/-- Which steps of `check_db_connection` succeed: `SessionLocal()`,
`db.execute("SELECT 1")`, `db.close()`. -/
structure DbBehavior where
  sessionOk : Bool
  executeOk : Bool
  closeOk : Bool
deriving DecidableEq

/-- Observable outcome of one `check_db_connection` call. -/
structure CheckRun where
  result : Bool
  raised : Bool
  closeCalls : Nat
  errorLogs : Nat
deriving DecidableEq

/-- `check_db_connection`: the whole body sits in one `try`; the `except`
logs the error and returns `False`.  `closeCalls` counts invocations of
`db.close()` — note the source never reaches it once an earlier statement
of the `try` block has raised. -/
def check_db_connection (b : DbBehavior) : CheckRun :=
  if b.sessionOk = false then
    { result := false, raised := false, closeCalls := 0, errorLogs := 1 }
  else if b.executeOk = false then
    { result := false, raised := false, closeCalls := 0, errorLogs := 1 }
  else if b.closeOk = false then
    { result := false, raised := false, closeCalls := 1, errorLogs := 1 }
  else
    { result := true, raised := false, closeCalls := 1, errorLogs := 0 }

/-! ## Pool diagnostics

SQLAlchemy's `QueuePool` counters: `size()` is the configured pool size,
`checkedin()` the number of idle connections in the queue, `overflow()` the
internal `_overflow` counter (initialised to `0 - pool_size` and tracking
live connections beyond it), and
`checkedout() = size() - checkedin() + overflow()`. -/

/-- Live counter state of a `QueuePool`. -/
structure QueuePoolState where
  maxsize : Int
  qsize : Int
  overflow : Int
deriving DecidableEq, Repr

/-- `pool.size()`. -/
def QueuePoolState.size (p : QueuePoolState) : Int := p.maxsize

/-- `pool.checkedin()`. -/
def QueuePoolState.checkedin (p : QueuePoolState) : Int := p.qsize

/-- `pool.checkedout()`. -/
def QueuePoolState.checkedout (p : QueuePoolState) : Int :=
  p.maxsize - p.qsize + p.overflow

/-- The mapping returned by `get_pool_status`. -/
structure PoolStatus where
  pool_size : Int
  checked_in : Int
  checked_out : Int
  overflow : Int
  total_connection : Int
deriving DecidableEq, Repr

/-- `get_pool_status`: read the live counters of `engine.pool` into a
dictionary; the same code runs whatever branch built the engine. -/
def get_pool_status (p : QueuePoolState) : PoolStatus :=
  { pool_size := p.size
    checked_in := p.checkedin
    checked_out := p.checkedout
    overflow := p.overflow
    total_connection := p.size + p.overflow }

/-- `log_pool_status`: log the dictionary `get_pool_status` returns; the
logged record is its return value. -/
def log_pool_status (p : QueuePoolState) : PoolStatus :=
  get_pool_status p

/-! ## Helper lemmas -/

/-- Substring containment is monotone: if `a` occurs inside `b`, any string
containing `b` also contains `a`. -/
theorem pyIn_of_sub (a b hay : String)
    (hab : List.IsInfix a.data b.data) (h : pyIn b hay = true) : pyIn a hay = true := by
  simp only [pyIn, decide_eq_true_eq] at h ⊢
  exact hab.trans h

/-- A URL not containing `"supabase"` cannot contain
`"pooler.supabase.com"`, which itself contains `"supabase"`; so the
source's first branch condition collapses to the `"supabase"` test. -/
theorem pooler_false_of_supabase_false (url : String)
    (h : pyIn "supabase" url = false) : pyIn "pooler.supabase.com" url = false := by
  cases h2 : pyIn "pooler.supabase.com" url
  · rfl
  · exact absurd (pyIn_of_sub "supabase" "pooler.supabase.com" url (by decide) h2)
      (by simp [h])

/-- Membership after `create_all`. -/
theorem mem_create_all (registry state : List String) (t : String) :
    t ∈ create_all registry state ↔ t ∈ state ∨ t ∈ registry := by
  simp only [create_all, List.mem_append, List.mem_filter, List.contains, List.elem_eq_mem,
    Bool.not_eq_true', decide_eq_false_iff_not]
  tauto

/-- Membership after `drop_all`. -/
theorem mem_drop_all (registry state : List String) (t : String) :
    t ∈ drop_all registry state ↔ t ∈ state ∧ t ∉ registry := by
  simp only [drop_all, List.mem_filter, List.contains, List.elem_eq_mem,
    Bool.not_eq_true', decide_eq_false_iff_not]

/-! ## Claims -/

/-- C1: resolved URLs select the engine branch: a URL containing
`"supabase"` yields the full pool policy plus `sslmode=require`, a
10-second connect timeout and `pool_pre_ping`; otherwise a URL containing
`"postgresql"` yields the same pool policy and ping without the forced
transport or timeout; otherwise the SQLite fallback with no pool policy,
`check_same_thread=False` and no ping. -/
theorem engine_branch_selection (url : String) (ps mo pt pr : Int) :
    (pyIn "supabase" url = true →
      makeEngine url ps mo pt pr =
        { url := url, poolclass_is_queue := true, pool_size := some ps,
          max_overflow := some mo, pool_timeout := some pt, pool_recycle := some pr,
          pool_pre_ping := true,
          connect_args := some { sslmode := some "require", connect_timeout := some 10,
                                 check_same_thread := none },
          echo := some false }) ∧
    (pyIn "supabase" url = false → pyIn "postgresql" url = true →
      makeEngine url ps mo pt pr =
        { url := url, poolclass_is_queue := true, pool_size := some ps,
          max_overflow := some mo, pool_timeout := some pt, pool_recycle := some pr,
          pool_pre_ping := true, connect_args := none, echo := none }) ∧
    (pyIn "supabase" url = false → pyIn "postgresql" url = false →
      makeEngine url ps mo pt pr =
        { url := url, poolclass_is_queue := false, pool_size := none,
          max_overflow := none, pool_timeout := none, pool_recycle := none,
          pool_pre_ping := false,
          connect_args := some { sslmode := none, connect_timeout := none,
                                 check_same_thread := some false },
          echo := some false }) := by
  refine ⟨fun h1 => ?_, fun h1 h2 => ?_, fun h1 h2 => ?_⟩
  · simp [makeEngine, h1]
  · simp [makeEngine, h1, pooler_false_of_supabase_false url h1, h2]
  · simp [makeEngine, h1, pooler_false_of_supabase_false url h1, h2]

/-- C1 witness at three concrete URLs, one per branch. -/
theorem engine_branch_selection_witness :
    (makeEngine "db.supabase.co" 20 10 30 3600).pool_pre_ping = true ∧
    (makeEngine "postgresql://host/db" 20 10 30 3600).connect_args = none ∧
    (makeEngine "sqlite:///./churn_api.db" 20 10 30 3600).pool_pre_ping = false := by
  refine ⟨?_, ?_, ?_⟩
  · rw [(engine_branch_selection "db.supabase.co" 20 10 30 3600).1 (by decide)]
  · rw [(engine_branch_selection "postgresql://host/db" 20 10 30 3600).2.1
      (by decide) (by decide)]
  · rw [(engine_branch_selection "sqlite:///./churn_api.db" 20 10 30 3600).2.2
      (by decide) (by decide)]

/-- C2: each configuration input uses the environment value exactly when
set (the URL verbatim, the four pool tunables passed unmodified to `int`),
and the fixed default when unset: URL `"sqlite:///./churn_api.db"`, pool
size 20, overflow 10, timeout 30, recycle 3600. -/
theorem config_env_resolution (env : Env) (s : String) :
    (env "DATABASE_URL" = some s → DATABASE_URL env = s) ∧
    (env "DATABASE_URL" = none → DATABASE_URL env = "sqlite:///./churn_api.db") ∧
    (env "DB_POOL_SIZE" = some s → DB_POOL_SIZE env = pyInt s) ∧
    (env "DB_POOL_SIZE" = none → DB_POOL_SIZE env = .ok 20) ∧
    (env "DB_MAX_OVERFLOW" = some s → DB_MAX_OVERFLOW env = pyInt s) ∧
    (env "DB_MAX_OVERFLOW" = none → DB_MAX_OVERFLOW env = .ok 10) ∧
    (env "DB_POOL_TIMEOUT" = some s → DB_POOL_TIMEOUT env = pyInt s) ∧
    (env "DB_POOL_TIMEOUT" = none → DB_POOL_TIMEOUT env = .ok 30) ∧
    (env "DB_POOL_RECYCLE" = some s → DB_POOL_RECYCLE env = pyInt s) ∧
    (env "DB_POOL_RECYCLE" = none → DB_POOL_RECYCLE env = .ok 3600) := by
  refine ⟨fun h => ?_, fun h => ?_, fun h => ?_, fun h => ?_, fun h => ?_,
    fun h => ?_, fun h => ?_, fun h => ?_, fun h => ?_, fun h => ?_⟩ <;>
    simp only [DATABASE_URL, DB_POOL_SIZE, DB_MAX_OVERFLOW, DB_POOL_TIMEOUT,
      DB_POOL_RECYCLE, getenvD, h, Option.getD_some, Option.getD_none]
  all_goals rfl

/-- C2 witness: defaults on the empty environment, and a set variable used
exactly. -/
theorem config_env_resolution_witness :
    DATABASE_URL envEmpty = "sqlite:///./churn_api.db" ∧
    DB_POOL_SIZE envEmpty = .ok 20 ∧
    DB_POOL_SIZE (envSet "DB_POOL_SIZE" "15" envEmpty) = .ok 15 := by
  refine ⟨(config_env_resolution envEmpty "").2.1 rfl,
    (config_env_resolution envEmpty "").2.2.2.1 rfl, ?_⟩
  rw [(config_env_resolution (envSet "DB_POOL_SIZE" "15" envEmpty) "15").2.2.1 rfl]
  rfl

/-- C10: a URL containing both `"supabase"` and `"postgresql"` takes the
managed-cloud branch — the engine gets `sslmode=require` and the 10-second
connect timeout, never the generic-Postgres configuration (whose
`connect_args` keyword is absent). -/
theorem supabase_precedence (url : String) (ps mo pt pr : Int)
    (h1 : pyIn "supabase" url = true) (h2 : pyIn "postgresql" url = true) :
    makeEngine url ps mo pt pr =
      { url := url, poolclass_is_queue := true, pool_size := some ps,
        max_overflow := some mo, pool_timeout := some pt, pool_recycle := some pr,
        pool_pre_ping := true,
        connect_args := some { sslmode := some "require", connect_timeout := some 10,
                               check_same_thread := none },
        echo := some false } ∧
    (makeEngine url ps mo pt pr).connect_args ≠ none := by
  have e := (engine_branch_selection url ps mo pt pr).1 h1
  exact ⟨e, by rw [e]; exact fun hc => Option.noConfusion hc⟩

/-- C10 witness at a Supabase-hosted `postgresql://` URL. -/
theorem supabase_precedence_witness :
    (makeEngine "postgresql://db.supabase.co/app" 20 10 30 3600).connect_args ≠ none :=
  (supabase_precedence "postgresql://db.supabase.co/app" 20 10 30 3600
    (by decide) (by decide)).2

/-- C3: whatever the caller does at the yield — consume the generator,
raise into it, or terminate it early — `get_db` closes the one session it
opened exactly once. -/
theorem get_db_closes_once (a : CallerAction) :
    (get_db a).2.opened = 1 ∧ (get_db a).2.closed = 1 := by
  cases a <;> exact ⟨rfl, rfl⟩

/-- C4 counterexample: when `db.execute` fails, `check_db_connection`
returns `False` but never calls `db.close()` — the claim's "closes the
session" on the failure path is false. -/
theorem check_db_no_close_on_failure :
    (check_db_connection { sessionOk := true, executeOk := false, closeOk := true }).result
      = false ∧
    (check_db_connection { sessionOk := true, executeOk := false, closeOk := true }).closeCalls
      = 0 :=
  ⟨rfl, rfl⟩

/-- C4 amended: `check_db_connection` never raises; it returns `True`
exactly when session creation, the liveness query and the close all
succeed (then the session was closed once); on any failure it logs the
error and returns `False`, and when the liveness query is what failed the
session is never closed. -/
theorem check_db_connection_spec (b : DbBehavior) :
    (check_db_connection b).raised = false ∧
    ((check_db_connection b).result = true ↔ (b.sessionOk && b.executeOk && b.closeOk) = true) ∧
    ((check_db_connection b).result = false → (check_db_connection b).errorLogs = 1) ∧
    ((check_db_connection b).result = true → (check_db_connection b).closeCalls = 1) ∧
    (b.sessionOk = true → b.executeOk = false → (check_db_connection b).closeCalls = 0) := by
  rcases b with ⟨s, e, c⟩
  cases s <;> cases e <;> cases c <;> simp [check_db_connection]

/-- C4 amended witness: with every step succeeding the session is closed
once. -/
theorem check_db_connection_spec_witness :
    (check_db_connection { sessionOk := true, executeOk := true, closeOk := true }).closeCalls
      = 1 :=
  (check_db_connection_spec { sessionOk := true, executeOk := true, closeOk := true }).2.2.2.1 rfl

/-- C5 counterexample: `drop_all` only drops registered tables, so a prior
table outside the registry survives `reset_db` — with registry
`["users"]` and prior state `["legacy"]`, two tables exist afterward, not
exactly the one registered table. -/
theorem reset_db_extraneous_table :
    "legacy" ∈ reset_db_tables ["users"] ["legacy"] ∧
    "legacy" ∉ (["users"] : List String) ∧
    (reset_db_tables ["users"] ["legacy"]).length ≠ (["users"] : List String).length := by
  decide

/-- C5 amended: `reset_db` is `drop_db` then `init_db` in that order; a
table exists afterward iff it is registered or pre-existing, so exactly
the registered tables exist whenever the prior state contains no table
outside the registry (in particular from an empty database). -/
theorem reset_db_spec (registry state : List String) :
    reset_db_tables registry state = init_db_tables registry (drop_db_tables registry state) ∧
    (∀ t, t ∈ reset_db_tables registry state ↔ t ∈ registry ∨ t ∈ state) ∧
    ((∀ t ∈ state, t ∈ registry) → reset_db_tables registry state = registry) := by
  refine ⟨rfl, fun t => ?_, fun h => ?_⟩
  · simp only [reset_db_tables, init_db_tables, drop_db_tables, mem_create_all, mem_drop_all]
    tauto
  · have hdrop : drop_all registry state = [] := by
      simp only [drop_all]
      rw [List.filter_eq_nil_iff]
      intro t ht
      simp [List.contains, List.elem_eq_mem, h t ht]
    simp [reset_db_tables, init_db_tables, drop_db_tables, hdrop, create_all,
      List.filter_eq_self]

/-- C5 amended witness: resetting an empty database with one registered
table leaves exactly that table. -/
theorem reset_db_spec_witness :
    reset_db_tables ["users"] [] = ["users"] :=
  (reset_db_spec ["users"] []).2.2 (by simp)

/-- C6: `init_db` creates every registered table not already present, then
runs the liveness query on a throwaway connection; on full success it
raises nothing, logs no error and logs success; if any step fails it logs
the error and re-raises. -/
theorem init_db_spec (b : InitBehavior) (registry state : List String) :
    (b.createOk = true → b.connectOk = true → b.executeOk = true →
      (init_db b registry state).raised = false ∧
      (init_db b registry state).tables = create_all registry state ∧
      (∀ t, t ∈ (init_db b registry state).tables ↔ t ∈ state ∨ t ∈ registry) ∧
      (init_db b registry state).errorLogs = 0 ∧
      0 < (init_db b registry state).infoLogs) ∧
    ((b.createOk = false ∨ b.connectOk = false ∨ b.executeOk = false) →
      (init_db b registry state).raised = true ∧
      (init_db b registry state).errorLogs = 1) := by
  rcases b with ⟨cr, co, ex⟩
  constructor
  · intro h1 h2 h3
    subst h1; subst h2; subst h3
    exact ⟨rfl, rfl, fun t => mem_create_all registry state t, rfl, by simp [init_db]⟩
  · intro h
    cases cr <;> cases co <;> cases ex <;> simp_all [init_db]

/-- C6 witness: a fully successful run on an empty database creates the
registered table and raises nothing. -/
theorem init_db_spec_witness :
    (init_db { createOk := true, connectOk := true, executeOk := true } ["users"] []).raised
      = false :=
  ((init_db_spec { createOk := true, connectOk := true, executeOk := true } ["users"] []).1
    rfl rfl rfl).1

/-- C7: the mapping `get_pool_status` returns satisfies
`checked_in + checked_out ≤ pool_size + overflow` (in fact with equality)
and `total_connection = pool_size + overflow`, for every pool state. -/
theorem get_pool_status_invariant (p : QueuePoolState) :
    (get_pool_status p).checked_in + (get_pool_status p).checked_out ≤
      (get_pool_status p).pool_size + (get_pool_status p).overflow ∧
    (get_pool_status p).total_connection =
      (get_pool_status p).pool_size + (get_pool_status p).overflow := by
  constructor
  · simp only [get_pool_status, QueuePoolState.checkedin, QueuePoolState.checkedout,
      QueuePoolState.size]
    omega
  · rfl

/-- C9 counterexample: a non-numeric pool tunable raises `ValueError`
already during configuration resolution, inside this module's `int(...)`
conversion — not later in the underlying library. -/
theorem config_nonnumeric_raises :
    DB_POOL_SIZE (envSet "DB_POOL_SIZE" "abc" envEmpty) = .error "abc" ∧
    ¬ ∃ n, DB_POOL_SIZE (envSet "DB_POOL_SIZE" "abc" envEmpty) = .ok n := by
  refine ⟨rfl, ?_⟩
  rintro ⟨n, h⟩
  rw [show DB_POOL_SIZE (envSet "DB_POOL_SIZE" "abc" envEmpty) = .error "abc" from rfl] at h
  exact Except.noConfusion h

/-- C9 amended: resolution performs no range or sign validation — any
string Python's `int` accepts, negative values included, is used as-is and
can only fail later in the underlying library; only strings `int` rejects
raise during resolution. -/
theorem config_no_range_validation (s : String) (n : Int) (h : pyInt s = .ok n) :
    DB_POOL_SIZE (envSet "DB_POOL_SIZE" s envEmpty) = .ok n ∧
    DB_MAX_OVERFLOW (envSet "DB_MAX_OVERFLOW" s envEmpty) = .ok n ∧
    DB_POOL_TIMEOUT (envSet "DB_POOL_TIMEOUT" s envEmpty) = .ok n ∧
    DB_POOL_RECYCLE (envSet "DB_POOL_RECYCLE" s envEmpty) = .ok n := by
  refine ⟨?_, ?_, ?_, ?_⟩ <;>
    simpa [DB_POOL_SIZE, DB_MAX_OVERFLOW, DB_POOL_TIMEOUT, DB_POOL_RECYCLE,
      getenvD, envSet, envEmpty] using h

/-- C9 amended witness: a negative pool size passes resolution untouched. -/
theorem config_no_range_validation_witness :
    DB_POOL_SIZE (envSet "DB_POOL_SIZE" "-5" envEmpty) = .ok (-5) :=
  (config_no_range_validation "-5" (-5) rfl).1

end ChurnDb
